import Mathlib

/-!
# Verification of the pneuma broker core

Shallow embedding of the broker core of the pneuma repository:
the confidence scorer (`crates/pneuma-broker/src/confidence/scorer.rs`),
the broker state machine and service-loop navigate path
(`crates/pneuma-broker/src/service.rs`), and the escalation handoff
procedure (`perform_handoff` in the same file).

Modelling conventions:
* Rust `u32`/`u64`/`usize` counters are `Nat` with explicit saturation
  (`min` against `2^32 - 1` resp. `2^64 - 1`) where the source saturates
  or clamps.
* `f32` score arithmetic is embedded as exact rational arithmetic over `ℚ`;
  every constant in the source is a short decimal fraction.
* JSON metadata strings are embedded at the value level: `NavigateMeta` is
  either an unparsable string (`invalid`) or a parsed `serde_json`-style
  value (`parsed`); serialization followed by re-parsing is the identity on
  parsed values, which matches `serde_json` round-tripping.
* The monotonic clock (`Instant::now`) and the wall clock used for
  `sampled_at_ms` are passed as explicit `Nat` parameters.
* Engines (`Box<dyn HeadlessEngine>`) are opaque handles, embedded as `Nat`
  identifiers; their async operation results are oracle inputs.
-/

/-- Rational analogue of `f32::min` (computable, kernel-reducible). -/
def qmin (a b : ℚ) : ℚ := if a ≤ b then a else b

/-- Rational analogue of `f32::max` (computable, kernel-reducible). -/
def qmax (a b : ℚ) : ℚ := if a ≤ b then b else a

/-- `ConfidenceSignals` from `confidence/signals.rs`: the post-navigate
observation vector. -/
structure ConfidenceSignals where
  first_paint_ms : Option Nat
  paint_element_count : Nat
  dom_element_count : Nat
  dom_depth_max : Nat
  body_text_length : Nat
  js_errors : Nat
  unhandled_promise_rejections : Nat
  console_error_count : Nat
  js_execution_time_ms : Nat
  failed_resource_count : Nat
  cors_violations : Nat
  pending_requests_at_sample : Nat
  css_parse_failures : Nat
  sampled_at_ms : Nat
deriving Repr, DecidableEq

/-- `Default for ConfidenceSignals`: all numerics zero, paint time absent. -/
def ConfidenceSignals.default : ConfidenceSignals :=
  ⟨none, 0, 0, 0, 0, 0, 0, 0, 0, 0, 0, 0, 0, 0⟩

/-- `FailureReason` from `confidence/scorer.rs` (the `SpaPrehyrationStall`
spelling is the source's). -/
inductive FailureReason where
  | zeroPaint
  | spaPrehyrationStall
  | jsCrashLoop (error_count : Nat)
  | networkStarvation (failed : Nat)
  | cssLayoutCollapse
  | slowExecution (ms : Nat)
deriving Repr, DecidableEq

/-- `EngineDecision` from `confidence/scorer.rs`. -/
inductive EngineDecision where
  | stayOnServo
  | escalateToLadybird (reason : FailureReason)
  | retryWithPatches (patches : List String)
deriving Repr, DecidableEq

/-- `ConfidenceReport` from `confidence/scorer.rs`. -/
structure ConfidenceReport where
  paint_score : ℚ
  dom_score : ℚ
  js_score : ℚ
  network_score : ℚ
  overall : ℚ
  failure_reason : Option FailureReason
  decision : EngineDecision

/-- `ConfidenceScorer`: just the configurable escalation threshold. -/
structure ConfidenceScorer where
  escalation_threshold : ℚ

/-- `ConfidenceScorer::new`: default threshold 0.60. -/
def ConfidenceScorer.new : ConfidenceScorer := ⟨3/5⟩

/-- `ConfidenceScorer::score_paint`. In the source the match arm `(_, 0)`
is only reached with `first_paint_ms = Some _`, since `(None, _)` matches
first. -/
def ConfidenceScorer.score_paint (_c : ConfidenceScorer)
    (signals : ConfidenceSignals) : ℚ :=
  match signals.first_paint_ms with
  | none => 0
  | some ms =>
    if signals.paint_element_count = 0 then 1/10
    else if ms > 8000 then 3/10
    else if ms > 3000 then 6/10
    else qmin ((signals.paint_element_count : ℚ) / 100) 1 * (4/10) + 6/10

/-- `ConfidenceScorer::score_dom`. -/
def ConfidenceScorer.score_dom (_c : ConfidenceScorer)
    (signals : ConfidenceSignals) : ℚ :=
  if signals.dom_element_count < 5 ∧ signals.body_text_length < 50 then 1/5
  else if signals.dom_element_count < 20 then 1/2
  else qmin ((signals.dom_element_count : ℚ) / 200 + 1/2) 1

/-- `ConfidenceScorer::score_js`: start at 1.0, subtract weighted error
counts, clamp from below at 0. -/
def ConfidenceScorer.score_js (_c : ConfidenceScorer)
    (signals : ConfidenceSignals) : ℚ :=
  qmax (1 - (signals.unhandled_promise_rejections : ℚ) * (15/100)
        - (signals.console_error_count : ℚ) * (5/100)
        - (signals.js_errors : ℚ) * (10/100)) 0

/-- `ConfidenceScorer::score_network`: three saturating penalties, clamp
from below at 0. -/
def ConfidenceScorer.score_network (_c : ConfidenceScorer)
    (signals : ConfidenceSignals) : ℚ :=
  let pending := qmin ((signals.pending_requests_at_sample : ℚ) * (5/100)) (3/10)
  let cors := qmin ((signals.cors_violations : ℚ) * (10/100)) (4/10)
  let failed := qmin ((signals.failed_resource_count : ℚ) * (3/100)) (1/5)
  qmax (1 - pending - cors - failed) 0

/-- `ConfidenceScorer::classify_failure`: ordered first-match rules. -/
def ConfidenceScorer.classify_failure (_c : ConfidenceScorer)
    (signals : ConfidenceSignals) (paint dom _js : ℚ) : Option FailureReason :=
  if paint = 0 then some .zeroPaint
  else if dom ≤ 1/5 then some .spaPrehyrationStall
  else if signals.js_errors > 3 ∨ signals.unhandled_promise_rejections > 2 then
    some (.jsCrashLoop signals.js_errors)
  else if signals.failed_resource_count > 5 ∨ signals.cors_violations > 2 then
    some (.networkStarvation signals.failed_resource_count)
  else if signals.css_parse_failures > 3 then some .cssLayoutCollapse
  else if signals.js_execution_time_ms > 5000 then
    some (.slowExecution signals.js_execution_time_ms)
  else none

/-- `ConfidenceScorer::decide`. The source special-cases
`SpaPrehyrationStall` before the generic `Some(reason)` arm; both produce
`EscalateToLadybird` of the same reason. -/
def ConfidenceScorer.decide (c : ConfidenceScorer) (overall : ℚ)
    (reason : Option FailureReason) (_signals : ConfidenceSignals) :
    EngineDecision :=
  match reason with
  | some .spaPrehyrationStall => .escalateToLadybird .spaPrehyrationStall
  | some r => .escalateToLadybird r
  | none =>
    if overall ≥ c.escalation_threshold then .stayOnServo
    else .escalateToLadybird .zeroPaint

/-- `ConfidenceScorer::score`: sub-scores, weighted overall, classification,
decision. -/
def ConfidenceScorer.score (c : ConfidenceScorer)
    (signals : ConfidenceSignals) : ConfidenceReport :=
  let paint := c.score_paint signals
  let dom := c.score_dom signals
  let js := c.score_js signals
  let network := c.score_network signals
  let overall := paint * (35/100) + dom * (30/100) + js * (25/100)
    + network * (10/100)
  let failure_reason := c.classify_failure signals paint dom js
  let decision := c.decide overall failure_reason signals
  ⟨paint, dom, js, network, overall, failure_reason, decision⟩

/-- A `serde_json::Value`. Numeric literals are embedded as integers;
`as_u64` succeeds exactly on integers in `[0, 2^64)`, which matches its
behaviour on the integral values the broker consumes. -/
inductive Json where
  | null
  | bool (b : Bool)
  | num (n : Int)
  | str (s : String)
  | arr (elems : List Json)
  | obj (fields : List (String × Json))

/-- `serde_json` object lookup (`object.get(key)`): first binding wins
(a parsed map has unique keys). -/
def lookupField : List (String × Json) → String → Option Json
  | [], _ => none
  | (k, v) :: rest, key => if k = key then some v else lookupField rest key

/-- `serde_json` map insert: replace the binding when the key is present,
append it otherwise. -/
def insertField : List (String × Json) → String → Json → List (String × Json)
  | [], key, v => [(key, v)]
  | (k, w) :: rest, key, v =>
    if k = key then (key, v) :: rest else (k, w) :: insertField rest key v

/-- `Value::as_bool`. -/
def Json.as_bool : Json → Option Bool
  | .bool b => some b
  | _ => none

/-- `Value::as_str`. -/
def Json.as_str : Json → Option String
  | .str s => some s
  | _ => none

/-- `Value::as_u64`. -/
def Json.as_u64 : Json → Option Nat
  | .num n => if 0 ≤ n ∧ n < 2 ^ 64 then some n.toNat else none
  | _ => none

/-- A navigate-metadata string at the value level: either a string
`serde_json::from_str` rejects, or the parsed value. Serializing a parsed
value and parsing it back is the identity, so the re-serialization in
`stamp_migrated` is dropped. -/
inductive NavigateMeta where
  | invalid (raw : String)
  | parsed (v : Json)

/-- `stamp_migrated` from `service.rs`: insert/overwrite `migrated` when
the input parses to a JSON object, return the input unchanged otherwise. -/
def stamp_migrated : NavigateMeta → Bool → NavigateMeta
  | .parsed (.obj fields), migrated =>
    .parsed (.obj (insertField fields "migrated" (.bool migrated)))
  | m, _ => m

/-- `parse_u32` from `service.rs`: `as_u64` clamped to `u32::MAX`. -/
def parse_u32 (object : List (String × Json)) (key : String) : Option Nat :=
  ((lookupField object key).bind Json.as_u64).map (fun v => min v (2 ^ 32 - 1))

/-- `parse_u64` from `service.rs`. -/
def parse_u64 (object : List (String × Json)) (key : String) : Option Nat :=
  (lookupField object key).bind Json.as_u64

/-- `parse_usize` from `service.rs`: `as_u64` clamped to `usize::MAX`
(64-bit, so the clamp is the identity on the `u64` range). -/
def parse_usize (object : List (String × Json)) (key : String) : Option Nat :=
  ((lookupField object key).bind Json.as_u64).map (fun v => min v (2 ^ 64 - 1))

/-- The override pass of `signals_from_navigate_meta`: each recognized
numeric probe field present in the object replaces the baseline value. -/
def applyProbeOverrides (object : List (String × Json))
    (s : ConfidenceSignals) : ConfidenceSignals :=
  let s := match parse_u64 object "first_paint_ms" with
    | some v => { s with first_paint_ms := some v }
    | none => s
  let s := match parse_usize object "paint_element_count" with
    | some v => { s with paint_element_count := v }
    | none => s
  let s := match parse_usize object "dom_element_count" with
    | some v => { s with dom_element_count := v }
    | none => s
  let s := match parse_usize object "dom_depth_max" with
    | some v => { s with dom_depth_max := v }
    | none => s
  let s := match parse_usize object "body_text_length" with
    | some v => { s with body_text_length := v }
    | none => s
  let s := match parse_u32 object "js_errors" with
    | some v => { s with js_errors := v }
    | none => s
  let s := match parse_u32 object "unhandled_promise_rejections" with
    | some v => { s with unhandled_promise_rejections := v }
    | none => s
  let s := match parse_u32 object "console_error_count" with
    | some v => { s with console_error_count := v }
    | none => s
  let s := match parse_u64 object "js_execution_time_ms" with
    | some v => { s with js_execution_time_ms := v }
    | none => s
  let s := match parse_u32 object "failed_resource_count" with
    | some v => { s with failed_resource_count := v }
    | none => s
  let s := match parse_u32 object "cors_violations" with
    | some v => { s with cors_violations := v }
    | none => s
  let s := match parse_u32 object "pending_requests_at_sample" with
    | some v => { s with pending_requests_at_sample := v }
    | none => s
  match parse_u32 object "css_parse_failures" with
  | some v => { s with css_parse_failures := v }
  | none => s

/-- Embedding of `str::trim`: drop whitespace from both ends.
(`Char.isWhitespace` stands for the Unicode White_Space predicate Rust
uses; they agree on every input considered here.) -/
def trimString (s : String) : String :=
  ⟨((s.data.dropWhile Char.isWhitespace).reverse.dropWhile
      Char.isWhitespace).reverse⟩

/-- `signals_from_navigate_meta` from `service.rs`. The wall-clock sample
time (`SystemTime::now` in the source) is the explicit `sampled_at_ms`
parameter; `page_id` is used only for logging in the source. -/
def signals_from_navigate_meta (meta : NavigateMeta) (_page_id : Nat)
    (sampled_at_ms : Nat) : ConfidenceSignals :=
  let signals0 := { ConfidenceSignals.default with sampled_at_ms := sampled_at_ms }
  match meta with
  | .invalid _ => signals0
  | .parsed v =>
    match v with
    | .obj object =>
      let ok := ((lookupField object "ok").bind Json.as_bool).getD false
      let s1 :=
        if ok then { signals0 with first_paint_ms := some 600 } else signals0
      let title :=
        trimString (((lookupField object "title").bind Json.as_str).getD "")
      let s2 :=
        if title ≠ "" then
          { s1 with
              paint_element_count := 24, dom_element_count := 32,
              dom_depth_max := 6,
              body_text_length := max (title.length * 12) 64,
              js_execution_time_ms := 250 }
        else s1
      applyProbeOverrides object s2
    | _ => signals0

/-- `ESCALATION_TIMEOUT` (10 s), in milliseconds. -/
def ESCALATION_TIMEOUT_MS : Nat := 10000

/-- `ACTIVE_FAILURE_BUDGET`. -/
def ACTIVE_FAILURE_BUDGET : Nat := 3

/-- `ESCALATION_BACKOFF_AFTER_ROLLBACK` (30 s), in milliseconds. -/
def ESCALATION_BACKOFF_AFTER_ROLLBACK_MS : Nat := 30000

/-- `u32::MAX`, the saturation point of `consecutive_failures`. -/
def U32_MAX : Nat := 2 ^ 32 - 1

/-- `EngineRole` from `service.rs`. -/
inductive EngineRole where
  | primary
  | secondaryProxy
deriving Repr, DecidableEq

/-- `BrokerState` from `service.rs`. Engines are opaque `Nat` handles;
monotonic instants are `Nat` milliseconds. -/
structure BrokerState where
  active_engine : Nat
  active_role : EngineRole
  standby_primary : Option Nat
  consecutive_failures : Nat
  escalation_backoff_until : Option Nat
deriving Repr, DecidableEq

/-- `BrokerState::new`. -/
def BrokerState.new (engine : Nat) : BrokerState :=
  ⟨engine, .primary, none, 0, none⟩

/-- `BrokerState::record_success`. -/
def BrokerState.record_success (s : BrokerState) : BrokerState :=
  { s with consecutive_failures := 0 }

/-- `BrokerState::record_failure`: saturating increment; the `Bool` is the
source's return value, true when the budget is exhausted. -/
def BrokerState.record_failure (s : BrokerState) : Bool × BrokerState :=
  let cf := min (s.consecutive_failures + 1) U32_MAX
  (decide (ACTIVE_FAILURE_BUDGET ≤ cf), { s with consecutive_failures := cf })

/-- `BrokerState::escalation_skip_reason`: `none` = eligible,
`some reason` = suppressed; `now` is the monotonic clock reading
(`Instant::now()` in the source). -/
def BrokerState.escalation_skip_reason (s : BrokerState) (now : Nat) :
    Option String :=
  if s.active_role = .secondaryProxy then some "already_on_secondary"
  else if s.standby_primary.isSome then some "standby_primary_present"
  else
    match s.escalation_backoff_until with
    | some deadline => if now < deadline then some "in_backoff_window" else none
    | none => none

/-- `BrokerState::apply_escalation`. -/
def BrokerState.apply_escalation (s : BrokerState) (secondary : Nat) :
    BrokerState :=
  { s with
      active_engine := secondary,
      standby_primary := some s.active_engine,
      active_role := .secondaryProxy,
      consecutive_failures := 0 }

/-- `BrokerState::apply_rollback`: when a standby exists, swap it in and
return the failed secondary for best-effort close; otherwise (`?` on
`take`) return `None` with the state untouched. -/
def BrokerState.apply_rollback (s : BrokerState) (now : Nat) :
    Option Nat × BrokerState :=
  match s.standby_primary with
  | none => (none, s)
  | some primary =>
    (some s.active_engine,
      { s with
          active_engine := primary,
          standby_primary := none,
          active_role := .primary,
          consecutive_failures := 0,
          escalation_backoff_until :=
            some (now + ESCALATION_BACKOFF_AFTER_ROLLBACK_MS) })

/-- The `BrokerState` transitions the service loop performs, as the loop
calls them: `record_success` after an `Ok` engine result; the
`handle_operation_health` failure branch (`record_failure` and, when the
budget is exhausted on the secondary, `apply_rollback`); the guarded
escalation of the Navigate path (`apply_escalation` only when
`escalation_skip_reason` is `None`); and `close_standby_primary`
(`standby_primary.take()` on CloseBrowser/Shutdown). -/
inductive ServiceOp where
  | recordSuccess
  | recordFailure (now : Nat)
  | navigateEscalation (now : Nat) (secondary : Nat)
  | closeStandby
deriving Repr, DecidableEq

/-- One service-loop transition applied to the broker state. -/
def applyOp (s : BrokerState) : ServiceOp → BrokerState
  | .recordSuccess => s.record_success
  | .recordFailure now =>
    let r := s.record_failure
    if r.1 ∧ r.2.active_role = .secondaryProxy then (r.2.apply_rollback now).2
    else r.2
  | .navigateEscalation now secondary =>
    match s.escalation_skip_reason now with
    | none => s.apply_escalation secondary
    | some _ => s
  | .closeStandby => { s with standby_primary := none }

/-- A sequence of service-loop transitions, first op first. -/
def runOps (s : BrokerState) : List ServiceOp → BrokerState
  | [] => s
  | op :: rest => runOps (applyOp s op) rest

/-- What the service loop observes from
`tokio::time::timeout(ESCALATION_TIMEOUT, perform_handoff(..))`: a
completed successful handoff (with the fields of `HandoffResult` the loop
reads), a completed failed handoff, or expiry of the 10-second budget. -/
inductive HandoffOutcome where
  | success (secondary : Nat) (result_json : NavigateMeta)
      (performed_final_navigate : Bool) (imported_entry_count : Nat)
  | failed (error : String)
  | timedOut

/-- The Navigate arm of `run_with_factory` in `service.rs`: health
recording (`handle_operation_health`), the migrated stamp for
secondary-served responses, signal parsing, scoring with the default
scorer, the escalation-skip gate, and the three handoff outcomes. Returns
the reply sent on the oneshot channel and the broker state after the
request. -/
def handleNavigate (s : BrokerState) (now sampled_at_ms page_id : Nat)
    (nav_result : Except String NavigateMeta) (handoff : HandoffOutcome) :
    Except String NavigateMeta × BrokerState :=
  let s1 := match nav_result with
    | .ok _ => s.record_success
    | .error _ =>
      let r := s.record_failure
      if r.1 ∧ r.2.active_role = .secondaryProxy then (r.2.apply_rollback now).2
      else r.2
  match nav_result with
  | .error e => (.error e, s1)
  | .ok meta =>
    let result :=
      if s1.active_role = .secondaryProxy then stamp_migrated meta true else meta
    let signals := signals_from_navigate_meta result page_id sampled_at_ms
    let report := ConfidenceScorer.new.score signals
    match report.decision with
    | .escalateToLadybird _ =>
      match s1.escalation_skip_reason now with
      | some _ => (.ok result, s1)
      | none =>
        match handoff with
        | .success secondary result_json _ _ =>
          (.ok (stamp_migrated result_json true), s1.apply_escalation secondary)
        | .failed _ => (.ok result, s1)
        | .timedOut => (.ok result, s1)
    | _ => (.ok result, s1)

/-- `EngineKind` from `pneuma-engines`. -/
inductive EngineKind where
  | servo
  | ladybird
deriving Repr, DecidableEq

/-- `MigrationCookie` from `pneuma-engines/src/migration.rs` (WebDriver
cookie shape; `expiry` in Unix seconds). -/
structure MigrationCookie where
  name : String
  value : String
  domain : Option String
  path : Option String
  secure : Option Bool
  http_only : Option Bool
  expiry : Option Nat
  same_site : Option String
deriving Repr, DecidableEq

/-- `LocalStorageEntry` from `pneuma-engines/src/migration.rs`. -/
structure LocalStorageEntry where
  key : String
  value : String
deriving Repr, DecidableEq

/-- `MigrationEnvelope` from `pneuma-engines/src/migration.rs`. -/
structure MigrationEnvelope where
  source_engine : EngineKind
  captured_at_ms : Nat
  current_url : Option String
  cookies : List MigrationCookie
  local_storage : List LocalStorageEntry
deriving Repr, DecidableEq

/-- `HandoffResult` from `service.rs` (the secondary engine is its opaque
handle). -/
structure HandoffResult where
  secondary : Nat
  result_json : NavigateMeta
  performed_final_navigate : Bool
  imported_entry_count : Nat

/-- The primary engine as `perform_handoff` uses it: only
`extract_state` is called on it. -/
structure PrimaryEngine where
  extract_state : Except String MigrationEnvelope

/-- The secondary engine as `perform_handoff` uses it: the results of its
bootstrap navigate, `import_state`, and final navigate, plus its opaque
handle. -/
structure SecondaryEngine where
  id : Nat
  bootstrap_navigate : Except String NavigateMeta
  import_state : Except String Unit
  final_navigate : Except String NavigateMeta

/-- `perform_handoff` from `service.rs`: extract -> create secondary ->
bootstrap navigate -> (conditional) import -> final navigate. The second
component records whether `import_state` was invoked (an explicit effect
trace of the otherwise-implicit call). -/
def perform_handoff (primary : PrimaryEngine)
    (factory : Except String SecondaryEngine) :
    Except String HandoffResult × Bool :=
  match primary.extract_state with
  | .error e => (.error ("extract_state failed: " ++ e), false)
  | .ok state =>
    match factory with
    | .error e => (.error ("factory.create_for_escalation failed: " ++ e), false)
    | .ok secondary =>
      match secondary.bootstrap_navigate with
      | .error e => (.error ("secondary bootstrap navigate failed: " ++ e), false)
      | .ok bootstrap_result =>
        let entry_count := state.cookies.length + state.local_storage.length
        if state.cookies.isEmpty ∧ state.local_storage.isEmpty then
          (.ok ⟨secondary.id, bootstrap_result, false, 0⟩, false)
        else
          match secondary.import_state with
          | .error e => (.error ("import_state failed: " ++ e), true)
          | .ok _ =>
            match secondary.final_navigate with
            | .error e =>
              (.error ("secondary final navigate failed: " ++ e), true)
            | .ok final_result =>
              (.ok ⟨secondary.id, final_result, true, entry_count⟩, true)

lemma qmin_le_right (a b : ℚ) : qmin a b ≤ b := by
  unfold qmin; split <;> simp_all

lemma qmin_le_left (a b : ℚ) : qmin a b ≤ a := by
  unfold qmin; split
  · exact le_refl a
  · exact le_of_not_le (by assumption)

lemma qmin_nonneg {a b : ℚ} (ha : 0 ≤ a) (hb : 0 ≤ b) : 0 ≤ qmin a b := by
  unfold qmin; split <;> assumption

lemma le_qmax_right (a b : ℚ) : b ≤ qmax a b := by
  unfold qmax; split
  · exact le_refl b
  · exact le_of_not_le (by assumption)

lemma qmax_le {a b c : ℚ} (ha : a ≤ c) (hb : b ≤ c) : qmax a b ≤ c := by
  unfold qmax; split <;> assumption

lemma score_paint_mem (c : ConfidenceScorer) (s : ConfidenceSignals) :
    0 ≤ c.score_paint s ∧ c.score_paint s ≤ 1 := by
  unfold ConfidenceScorer.score_paint
  cases s.first_paint_ms with
  | none => norm_num
  | some ms =>
    simp only
    split
    · norm_num
    split
    · norm_num
    split
    · norm_num
    have h0 : (0:ℚ) ≤ qmin ((s.paint_element_count : ℚ) / 100) 1 :=
      qmin_nonneg (by positivity) (by norm_num)
    have h1 : qmin ((s.paint_element_count : ℚ) / 100) 1 ≤ 1 := qmin_le_right _ _
    constructor <;> nlinarith

lemma score_dom_mem (c : ConfidenceScorer) (s : ConfidenceSignals) :
    0 ≤ c.score_dom s ∧ c.score_dom s ≤ 1 := by
  unfold ConfidenceScorer.score_dom
  split
  · norm_num
  split
  · norm_num
  have h0 : (0:ℚ) ≤ qmin ((s.dom_element_count : ℚ) / 200 + 1/2) 1 :=
    qmin_nonneg (by positivity) (by norm_num)
  have h1 : qmin ((s.dom_element_count : ℚ) / 200 + 1/2) 1 ≤ 1 := qmin_le_right _ _
  exact ⟨h0, h1⟩

lemma score_js_mem (c : ConfidenceScorer) (s : ConfidenceSignals) :
    0 ≤ c.score_js s ∧ c.score_js s ≤ 1 := by
  unfold ConfidenceScorer.score_js
  refine ⟨le_qmax_right _ _, qmax_le ?_ (by norm_num)⟩
  have hu : (0:ℚ) ≤ (s.unhandled_promise_rejections : ℚ) * (15/100) := by positivity
  have hc : (0:ℚ) ≤ (s.console_error_count : ℚ) * (5/100) := by positivity
  have hj : (0:ℚ) ≤ (s.js_errors : ℚ) * (10/100) := by positivity
  linarith

lemma score_network_mem (c : ConfidenceScorer) (s : ConfidenceSignals) :
    0 ≤ c.score_network s ∧ c.score_network s ≤ 1 := by
  unfold ConfidenceScorer.score_network
  simp only
  refine ⟨le_qmax_right _ _, qmax_le ?_ (by norm_num)⟩
  have hp : (0:ℚ) ≤ qmin ((s.pending_requests_at_sample : ℚ) * (5/100)) (3/10) :=
    qmin_nonneg (by positivity) (by norm_num)
  have hc : (0:ℚ) ≤ qmin ((s.cors_violations : ℚ) * (10/100)) (4/10) :=
    qmin_nonneg (by positivity) (by norm_num)
  have hf : (0:ℚ) ≤ qmin ((s.failed_resource_count : ℚ) * (3/100)) (1/5) :=
    qmin_nonneg (by positivity) (by norm_num)
  linarith

/-- C8: for every `ConfidenceSignals` value, each sub-score (paint, dom,
js, network) lies in `[0, 1]`, and the overall score
`0.35*paint + 0.30*dom + 0.25*js + 0.10*network` also lies in `[0, 1]`. -/
theorem score_components_bounded (c : ConfidenceScorer) (s : ConfidenceSignals) :
    (0 ≤ (c.score s).paint_score ∧ (c.score s).paint_score ≤ 1) ∧
    (0 ≤ (c.score s).dom_score ∧ (c.score s).dom_score ≤ 1) ∧
    (0 ≤ (c.score s).js_score ∧ (c.score s).js_score ≤ 1) ∧
    (0 ≤ (c.score s).network_score ∧ (c.score s).network_score ≤ 1) ∧
    ((c.score s).overall = (c.score s).paint_score * (35/100)
      + (c.score s).dom_score * (30/100) + (c.score s).js_score * (25/100)
      + (c.score s).network_score * (10/100)) ∧
    (0 ≤ (c.score s).overall ∧ (c.score s).overall ≤ 1) := by
  obtain ⟨hp0, hp1⟩ := score_paint_mem c s
  obtain ⟨hd0, hd1⟩ := score_dom_mem c s
  obtain ⟨hj0, hj1⟩ := score_js_mem c s
  obtain ⟨hn0, hn1⟩ := score_network_mem c s
  simp only [ConfidenceScorer.score]
  refine ⟨⟨hp0, hp1⟩, ⟨hd0, hd1⟩, ⟨hj0, hj1⟩, ⟨hn0, hn1⟩, by trivial, ?_, ?_⟩ <;>
    nlinarith

/-- C1: for every `ConfidenceSignals` value, the scorer's decision is
`EscalateToLadybird reason` whenever failure classification yields a
reason; otherwise `StayOnServo` when `overall ≥ escalation_threshold`
(default 0.60) and `EscalateToLadybird ZeroPaint` when
`overall < escalation_threshold`. -/
theorem scorer_decision_spec (c : ConfidenceScorer) (s : ConfidenceSignals) :
    (∀ r, (c.score s).failure_reason = some r →
      (c.score s).decision = .escalateToLadybird r) ∧
    ((c.score s).failure_reason = none →
      ((c.score s).overall ≥ c.escalation_threshold →
        (c.score s).decision = .stayOnServo) ∧
      ((c.score s).overall < c.escalation_threshold →
        (c.score s).decision = .escalateToLadybird .zeroPaint)) ∧
    ConfidenceScorer.new.escalation_threshold = 3/5 := by
  refine ⟨?_, ?_, rfl⟩
  · intro r hr
    simp only [ConfidenceScorer.score] at hr ⊢
    rw [hr]
    cases r <;> rfl
  · intro hr
    simp only [ConfidenceScorer.score] at hr ⊢
    rw [hr]
    simp only [ConfidenceScorer.decide]
    constructor
    · intro hge
      rw [if_pos hge]
    · intro hlt
      rw [if_neg (not_le.mpr hlt)]

/-- Witness for C1 at a concrete input: the all-defaults signals classify
as `ZeroPaint` and the decision escalates with that reason. -/
theorem scorer_decision_spec_witness :
    (ConfidenceScorer.new.score ConfidenceSignals.default).decision
      = .escalateToLadybird .zeroPaint :=
  (scorer_decision_spec ConfidenceScorer.new ConfidenceSignals.default).1
    .zeroPaint (by decide)

lemma lookupField_insert_of_ne (fields : List (String × Json))
    (k key : String) (v : Json) (h : key ≠ k) :
    lookupField (insertField fields k v) key = lookupField fields key := by
  induction fields with
  | nil => simp [insertField, lookupField, Ne.symm h]
  | cons p rest ih =>
    obtain ⟨k0, w⟩ := p
    by_cases hk : k0 = k
    · subst hk
      simp [insertField, lookupField, Ne.symm h]
    · simp only [insertField, if_neg hk, lookupField]
      split
      · rfl
      · exact ih

/-- C9: parsing signals from migrated-stamped metadata equals parsing
signals from the original metadata, for every metadata value (and any
sample clock and page id). -/
theorem signals_unchanged_by_migrated_stamp (m : NavigateMeta)
    (page_id sampled_at_ms : Nat) :
    signals_from_navigate_meta (stamp_migrated m true) page_id sampled_at_ms
      = signals_from_navigate_meta m page_id sampled_at_ms := by
  cases m with
  | invalid raw => rfl
  | parsed v =>
    cases v with
    | obj fields =>
      have e0 : lookupField (insertField fields "migrated" (Json.bool true))
          "ok" = lookupField fields "ok" :=
        lookupField_insert_of_ne fields "migrated" "ok" (.bool true)
          (by decide)
      have e1 : lookupField (insertField fields "migrated" (Json.bool true))
          "title" = lookupField fields "title" :=
        lookupField_insert_of_ne fields "migrated" "title" (.bool true)
          (by decide)
      have e2 : lookupField (insertField fields "migrated" (Json.bool true))
          "first_paint_ms" = lookupField fields "first_paint_ms" :=
        lookupField_insert_of_ne fields "migrated" "first_paint_ms" (.bool true)
          (by decide)
      have e3 : lookupField (insertField fields "migrated" (Json.bool true))
          "paint_element_count" = lookupField fields "paint_element_count" :=
        lookupField_insert_of_ne fields "migrated" "paint_element_count" (.bool true)
          (by decide)
      have e4 : lookupField (insertField fields "migrated" (Json.bool true))
          "dom_element_count" = lookupField fields "dom_element_count" :=
        lookupField_insert_of_ne fields "migrated" "dom_element_count" (.bool true)
          (by decide)
      have e5 : lookupField (insertField fields "migrated" (Json.bool true))
          "dom_depth_max" = lookupField fields "dom_depth_max" :=
        lookupField_insert_of_ne fields "migrated" "dom_depth_max" (.bool true)
          (by decide)
      have e6 : lookupField (insertField fields "migrated" (Json.bool true))
          "body_text_length" = lookupField fields "body_text_length" :=
        lookupField_insert_of_ne fields "migrated" "body_text_length" (.bool true)
          (by decide)
      have e7 : lookupField (insertField fields "migrated" (Json.bool true))
          "js_errors" = lookupField fields "js_errors" :=
        lookupField_insert_of_ne fields "migrated" "js_errors" (.bool true)
          (by decide)
      have e8 : lookupField (insertField fields "migrated" (Json.bool true))
          "unhandled_promise_rejections" = lookupField fields "unhandled_promise_rejections" :=
        lookupField_insert_of_ne fields "migrated" "unhandled_promise_rejections" (.bool true)
          (by decide)
      have e9 : lookupField (insertField fields "migrated" (Json.bool true))
          "console_error_count" = lookupField fields "console_error_count" :=
        lookupField_insert_of_ne fields "migrated" "console_error_count" (.bool true)
          (by decide)
      have e10 : lookupField (insertField fields "migrated" (Json.bool true))
          "js_execution_time_ms" = lookupField fields "js_execution_time_ms" :=
        lookupField_insert_of_ne fields "migrated" "js_execution_time_ms" (.bool true)
          (by decide)
      have e11 : lookupField (insertField fields "migrated" (Json.bool true))
          "failed_resource_count" = lookupField fields "failed_resource_count" :=
        lookupField_insert_of_ne fields "migrated" "failed_resource_count" (.bool true)
          (by decide)
      have e12 : lookupField (insertField fields "migrated" (Json.bool true))
          "cors_violations" = lookupField fields "cors_violations" :=
        lookupField_insert_of_ne fields "migrated" "cors_violations" (.bool true)
          (by decide)
      have e13 : lookupField (insertField fields "migrated" (Json.bool true))
          "pending_requests_at_sample" = lookupField fields "pending_requests_at_sample" :=
        lookupField_insert_of_ne fields "migrated" "pending_requests_at_sample" (.bool true)
          (by decide)
      have e14 : lookupField (insertField fields "migrated" (Json.bool true))
          "css_parse_failures" = lookupField fields "css_parse_failures" :=
        lookupField_insert_of_ne fields "migrated" "css_parse_failures" (.bool true)
          (by decide)
      simp only [stamp_migrated, signals_from_navigate_meta,
        applyProbeOverrides, parse_u32, parse_u64, parse_usize,
        e0, e1, e2, e3, e4, e5, e6, e7, e8, e9, e10, e11, e12, e13, e14]
    | null => rfl
    | bool b => rfl
    | num n => rfl
    | str s => rfl
    | arr elems => rfl

/-- C4: starting from `consecutive_failures = 0`, `record_failure` first
reports budget exhausted exactly on the third consecutive call
(`ACTIVE_FAILURE_BUDGET = 3`), and `record_success` resets the counter to
zero (so after any intervening success the count restarts from zero). -/
theorem record_failure_third_call_exhausts (s : BrokerState)
    (h : s.consecutive_failures = 0) :
    (s.record_failure).1 = false ∧
    ((s.record_failure).2.record_failure).1 = false ∧
    (((s.record_failure).2.record_failure).2.record_failure).1 = true ∧
    ACTIVE_FAILURE_BUDGET = 3 ∧
    ∀ s2 : BrokerState, (s2.record_success).consecutive_failures = 0 := by
  refine ⟨?_, ?_, ?_, rfl, fun s2 => rfl⟩ <;>
    simp [BrokerState.record_failure, h, U32_MAX, ACTIVE_FAILURE_BUDGET]

/-- Witness for C4 at the freshly-created broker state. -/
theorem record_failure_third_call_exhausts_witness :
    ((BrokerState.new 1).record_failure).1 = false ∧
    (((BrokerState.new 1).record_failure).2.record_failure).1 = false ∧
    ((((BrokerState.new 1).record_failure).2.record_failure).2.record_failure).1
      = true ∧
    ((BrokerState.mk 7 .primary none 2 none).record_success).consecutive_failures
      = 0 := by
  have h := record_failure_third_call_exhausts (BrokerState.new 1) rfl
  exact ⟨h.1, h.2.1, h.2.2.1, h.2.2.2.2 (BrokerState.mk 7 .primary none 2 none)⟩

/-- C5: `escalation_skip_reason` returns a reason iff the role is
`SecondaryProxy`, or a standby is present, or `now` precedes the backoff
deadline; the reasons are reported in that priority order, and when none
applies the state is eligible (`none`). -/
theorem escalation_skip_reason_spec (s : BrokerState) (now : Nat) :
    (s.active_role = .secondaryProxy →
      s.escalation_skip_reason now = some "already_on_secondary") ∧
    (s.active_role ≠ .secondaryProxy → s.standby_primary.isSome →
      s.escalation_skip_reason now = some "standby_primary_present") ∧
    (s.active_role ≠ .secondaryProxy → s.standby_primary = none →
      ∀ deadline, s.escalation_backoff_until = some deadline → now < deadline →
        s.escalation_skip_reason now = some "in_backoff_window") ∧
    ((s.escalation_skip_reason now).isSome ↔
      (s.active_role = .secondaryProxy ∨ s.standby_primary.isSome ∨
        ∃ deadline, s.escalation_backoff_until = some deadline ∧
          now < deadline)) := by
  unfold BrokerState.escalation_skip_reason
  refine ⟨?_, ?_, ?_, ?_⟩
  · intro hrole
    rw [if_pos hrole]
  · intro hrole hsb
    rw [if_neg hrole, if_pos hsb]
  · intro hrole hsb deadline hbk hnow
    rw [if_neg hrole]
    simp only [hsb, Option.isSome_none, Bool.false_eq_true, if_false, hbk,
      if_pos hnow]
  · by_cases hrole : s.active_role = .secondaryProxy
    · simp [hrole]
    · by_cases hsb : s.standby_primary.isSome
      · simp [hrole, hsb]
      · cases hbk : s.escalation_backoff_until with
        | none => simp [hrole, hsb, hbk]
        | some deadline =>
          by_cases hnow : now < deadline
          · simp [hrole, hsb, hbk, hnow]
          · simp [hrole, hsb, hbk, hnow]

/-- Witness for C5: a state on the secondary proxy is suppressed with
`already_on_secondary`. -/
theorem escalation_skip_reason_spec_witness :
    (BrokerState.mk 2 .secondaryProxy (some 1) 0 none).escalation_skip_reason 5
      = some "already_on_secondary" :=
  (escalation_skip_reason_spec (BrokerState.mk 2 .secondaryProxy (some 1) 0 none)
    5).1 rfl

/-- C10: on a state with no standby, `apply_rollback` returns `None` and
leaves the whole state (active engine, role, failure counter, backoff
deadline) unchanged. -/
theorem apply_rollback_without_standby_noop (s : BrokerState) (now : Nat)
    (h : s.standby_primary = none) :
    s.apply_rollback now = (none, s) := by
  unfold BrokerState.apply_rollback
  rw [h]

/-- Witness for C10 at the freshly-created broker state. -/
theorem apply_rollback_without_standby_noop_witness :
    (BrokerState.new 3).apply_rollback 17 = (none, BrokerState.new 3) :=
  apply_rollback_without_standby_noop (BrokerState.new 3) 17 rfl

lemma applyOp_preserves_standby_imp (s : BrokerState) (op : ServiceOp)
    (h : s.standby_primary.isSome → s.active_role = .secondaryProxy) :
    (applyOp s op).standby_primary.isSome →
      (applyOp s op).active_role = .secondaryProxy := by
  cases op with
  | recordSuccess => exact h
  | recordFailure now =>
    simp only [applyOp]
    split
    · cases hsb : s.standby_primary with
      | none =>
        simp [BrokerState.apply_rollback, BrokerState.record_failure, hsb]
      | some p =>
        simp [BrokerState.apply_rollback, BrokerState.record_failure, hsb]
    · exact h
  | navigateEscalation now secondary =>
    cases hsr : s.escalation_skip_reason now with
    | none => simp [applyOp, hsr, BrokerState.apply_escalation]
    | some reason => simpa [applyOp, hsr] using h
  | closeStandby => simp [applyOp]

lemma applyOp_preserves_standby_iff (s : BrokerState) (op : ServiceOp)
    (hop : op ≠ .closeStandby)
    (h : s.standby_primary.isSome ↔ s.active_role = .secondaryProxy) :
    ((applyOp s op).standby_primary.isSome ↔
      (applyOp s op).active_role = .secondaryProxy) := by
  cases op with
  | recordSuccess => exact h
  | recordFailure now =>
    simp only [applyOp]
    split
    · rename_i hcond
      cases hsb : s.standby_primary with
      | none =>
        exfalso
        have hrole : s.active_role = .secondaryProxy := by
          simpa [BrokerState.record_failure] using hcond.2
        have := h.mpr hrole
        rw [hsb] at this
        simp at this
      | some p =>
        simp [BrokerState.apply_rollback, BrokerState.record_failure, hsb]
    · exact h
  | navigateEscalation now secondary =>
    cases hsr : s.escalation_skip_reason now with
    | none => simp [applyOp, hsr, BrokerState.apply_escalation]
    | some reason => simpa [applyOp, hsr] using h
  | closeStandby => exact absurd rfl hop

lemma runOps_preserves_standby_imp (ops : List ServiceOp) (s : BrokerState)
    (h : s.standby_primary.isSome → s.active_role = .secondaryProxy) :
    (runOps s ops).standby_primary.isSome →
      (runOps s ops).active_role = .secondaryProxy := by
  induction ops generalizing s with
  | nil => exact h
  | cons op rest ih =>
    exact ih (applyOp s op) (applyOp_preserves_standby_imp s op h)

lemma runOps_preserves_standby_iff (ops : List ServiceOp) (s : BrokerState)
    (hops : ServiceOp.closeStandby ∉ ops)
    (h : s.standby_primary.isSome ↔ s.active_role = .secondaryProxy) :
    ((runOps s ops).standby_primary.isSome ↔
      (runOps s ops).active_role = .secondaryProxy) := by
  induction ops generalizing s with
  | nil => exact h
  | cons op rest ih =>
    have hop : op ≠ .closeStandby := fun he => hops (he ▸ List.mem_cons_self op rest)
    have hrest : ServiceOp.closeStandby ∉ rest :=
      fun he => hops (List.mem_cons_of_mem op he)
    exact ih (applyOp s op) hrest (applyOp_preserves_standby_iff s op hop h)

/-- C6 counterexample: from the initial state, a guarded escalation
followed by the standby close of CloseBrowser/Shutdown leaves the role
`SecondaryProxy` with no standby, so "standby present iff role is
SecondaryProxy" fails on this reachable state. -/
theorem standby_iff_secondary_counterexample :
    (runOps (BrokerState.new 1)
        [ServiceOp.navigateEscalation 0 2, ServiceOp.closeStandby]).active_role
      = .secondaryProxy ∧
    (runOps (BrokerState.new 1)
        [ServiceOp.navigateEscalation 0 2, ServiceOp.closeStandby]).standby_primary
      = none ∧
    ¬ ((runOps (BrokerState.new 1)
          [ServiceOp.navigateEscalation 0 2,
            ServiceOp.closeStandby]).standby_primary.isSome ↔
        (runOps (BrokerState.new 1)
            [ServiceOp.navigateEscalation 0 2,
              ServiceOp.closeStandby]).active_role = .secondaryProxy) := by
  decide

/-- C6 (amended): in every state reachable from the initial state by
service-loop operations, a present standby implies role `SecondaryProxy`;
the full "iff" additionally holds for every sequence that contains no
standby close (CloseBrowser/Shutdown clear the standby but leave the role
`SecondaryProxy`, which is the only way the two sides diverge). -/
theorem standby_implies_secondary_invariant (e : Nat) (ops : List ServiceOp) :
    ((runOps (BrokerState.new e) ops).standby_primary.isSome →
      (runOps (BrokerState.new e) ops).active_role = .secondaryProxy) ∧
    (ServiceOp.closeStandby ∉ ops →
      ((runOps (BrokerState.new e) ops).standby_primary.isSome ↔
        (runOps (BrokerState.new e) ops).active_role = .secondaryProxy)) := by
  constructor
  · exact runOps_preserves_standby_imp ops (BrokerState.new e) (by simp [BrokerState.new])
  · intro hops
    exact runOps_preserves_standby_iff ops (BrokerState.new e) hops
      (by simp [BrokerState.new])

/-- Witness for C6 (amended) on a concrete close-free sequence: after a
guarded escalation the standby is present and the role is
`SecondaryProxy`. -/
theorem standby_implies_secondary_invariant_witness :
    ((runOps (BrokerState.new 1)
        [ServiceOp.navigateEscalation 0 2]).standby_primary.isSome ↔
      (runOps (BrokerState.new 1)
          [ServiceOp.navigateEscalation 0 2]).active_role = .secondaryProxy) :=
  (standby_implies_secondary_invariant 1
    [ServiceOp.navigateEscalation 0 2]).2 (by decide)

lemma lookupField_insert_self (fields : List (String × Json)) (k : String)
    (v : Json) :
    lookupField (insertField fields k v) k = some v := by
  induction fields with
  | nil => simp [insertField, lookupField]
  | cons p rest ih =>
    obtain ⟨k0, w⟩ := p
    by_cases hk : k0 = k
    · subst hk
      simp [insertField, lookupField]
    · simp [insertField, hk, lookupField, ih]

lemma skip_none_role_ne_secondary {s : BrokerState} {now : Nat}
    (hskip : s.escalation_skip_reason now = none) :
    s.active_role ≠ .secondaryProxy := by
  intro hr
  rw [BrokerState.escalation_skip_reason, if_pos hr] at hskip
  exact Option.noConfusion hskip

/-- C2: when a Navigate whose primary result is `Ok` attempts a handoff
(escalate decision, no skip reason) and the handoff ends in an error or in
expiry of the budget, the reply is the already-produced primary `Ok`
result unchanged, and the broker state is exactly the pre-handoff state:
the handoff attempt changes no field (the active engine, role, standby and
backoff deadline are those of the incoming state; only the preceding
`record_success` reset the failure counter). -/
theorem navigate_handoff_failure_falls_back (s : BrokerState)
    (now sampled_at_ms page_id : Nat) (meta : NavigateMeta)
    (handoff : HandoffOutcome) (r : FailureReason)
    (hdec : (ConfidenceScorer.new.score
        (signals_from_navigate_meta meta page_id sampled_at_ms)).decision
      = .escalateToLadybird r)
    (hskip : (s.record_success).escalation_skip_reason now = none)
    (hfail : (∃ e, handoff = .failed e) ∨ handoff = .timedOut) :
    handleNavigate s now sampled_at_ms page_id (.ok meta) handoff
      = (.ok meta, s.record_success) ∧
    (s.record_success).active_engine = s.active_engine ∧
    (s.record_success).active_role = s.active_role ∧
    (s.record_success).standby_primary = s.standby_primary ∧
    (s.record_success).escalation_backoff_until
      = s.escalation_backoff_until := by
  have hrole := skip_none_role_ne_secondary hskip
  refine ⟨?_, rfl, rfl, rfl, rfl⟩
  rcases hfail with ⟨e, rfl⟩ | rfl <;>
    simp [handleNavigate, hrole, hdec, hskip]

/-- Witness for C2: unparsable metadata scores `ZeroPaint`-escalate on a
fresh primary state, and a timed-out handoff replies with the primary
result on the unchanged state. -/
theorem navigate_handoff_failure_falls_back_witness :
    handleNavigate (BrokerState.new 1) 0 0 1 (.ok (.invalid "x")) .timedOut
      = (.ok (.invalid "x"), (BrokerState.new 1).record_success) :=
  (navigate_handoff_failure_falls_back (BrokerState.new 1) 0 0 1 (.invalid "x")
    .timedOut .zeroPaint (by decide) (by decide) (Or.inr rfl)).1

/-- C3: when a Navigate whose primary result is `Ok` attempts a handoff
and the handoff completes successfully within the budget, the broker
adopts the secondary as active with role `SecondaryProxy`, keeps the
former primary as standby, and the reply is the handoff result stamped
`migrated: true` (on JSON-object metadata the stamped object maps
`migrated` to `true`). -/
theorem navigate_handoff_success_adopts_secondary (s : BrokerState)
    (now sampled_at_ms page_id : Nat) (meta result_json : NavigateMeta)
    (secondary : Nat) (performed_final : Bool) (imported : Nat)
    (r : FailureReason)
    (hdec : (ConfidenceScorer.new.score
        (signals_from_navigate_meta meta page_id sampled_at_ms)).decision
      = .escalateToLadybird r)
    (hskip : (s.record_success).escalation_skip_reason now = none) :
    handleNavigate s now sampled_at_ms page_id (.ok meta)
        (.success secondary result_json performed_final imported)
      = (.ok (stamp_migrated result_json true),
          (s.record_success).apply_escalation secondary) ∧
    ((s.record_success).apply_escalation secondary).active_engine
      = secondary ∧
    ((s.record_success).apply_escalation secondary).active_role
      = .secondaryProxy ∧
    ((s.record_success).apply_escalation secondary).standby_primary
      = some s.active_engine ∧
    ∀ fields, result_json = .parsed (.obj fields) →
      stamp_migrated result_json true
        = .parsed (.obj (insertField fields "migrated" (.bool true))) ∧
      lookupField (insertField fields "migrated" (.bool true)) "migrated"
        = some (.bool true) := by
  have hrole := skip_none_role_ne_secondary hskip
  refine ⟨?_, rfl, rfl, rfl, ?_⟩
  · simp [handleNavigate, hrole, hdec, hskip]
  · rintro fields rfl
    exact ⟨rfl, lookupField_insert_self fields "migrated" (.bool true)⟩

/-- Witness for C3: on a fresh primary state with unparsable primary
metadata, a successful handoff adopts engine 2, keeps engine 1 as standby,
and the stamped object reply maps `migrated` to `true`. -/
theorem navigate_handoff_success_adopts_secondary_witness :
    handleNavigate (BrokerState.new 1) 0 0 1 (.ok (.invalid "x"))
        (.success 2 (.parsed (.obj [])) false 0)
      = (.ok (.parsed (.obj [("migrated", .bool true)])),
          (BrokerState.new 1).record_success.apply_escalation 2) ∧
    ((BrokerState.new 1).record_success.apply_escalation 2).active_engine
      = 2 ∧
    ((BrokerState.new 1).record_success.apply_escalation 2).standby_primary
      = some 1 ∧
    lookupField (insertField [] "migrated" (.bool true)) "migrated"
      = some (.bool true) := by
  have h := navigate_handoff_success_adopts_secondary (BrokerState.new 1) 0 0 1
    (.invalid "x") (.parsed (.obj [])) 2 false 0 .zeroPaint (by decide)
    (by decide)
  exact ⟨h.1, h.2.1, h.2.2.2.1, (h.2.2.2.2 [] rfl).2⟩

/-- C7: when the envelope extracted in step 1 has no cookies and no
local-storage entries, `perform_handoff` skips the import and the final
navigate: it returns the bootstrap navigate result with
`performed_final_navigate = false` and `imported_entry_count = 0`, and
`import_state` is never called. -/
theorem perform_handoff_empty_envelope_skips_import
    (primary : PrimaryEngine) (factory : Except String SecondaryEngine)
    (state : MigrationEnvelope) (secondary : SecondaryEngine)
    (bootstrap_result : NavigateMeta)
    (hx : primary.extract_state = .ok state)
    (hc : state.cookies = []) (hl : state.local_storage = [])
    (hf : factory = .ok secondary)
    (hb : secondary.bootstrap_navigate = .ok bootstrap_result) :
    perform_handoff primary factory
      = (.ok ⟨secondary.id, bootstrap_result, false, 0⟩, false) := by
  simp [perform_handoff, hx, hf, hb, hc, hl]

/-- Witness for C7: a primary holding an empty envelope and a happy
secondary produce the bootstrap result, no final navigate, zero imports,
and no `import_state` call. -/
theorem perform_handoff_empty_envelope_skips_import_witness :
    perform_handoff
        ⟨.ok ⟨.servo, 0, some "https://example.com/", [], []⟩⟩
        (.ok ⟨2, .ok (.parsed (.obj [("title", .str "Secondary Title")])),
          .ok (), .ok (.invalid "unused")⟩)
      = (.ok ⟨2, .parsed (.obj [("title", .str "Secondary Title")]), false, 0⟩,
          false) :=
  perform_handoff_empty_envelope_skips_import
    ⟨.ok ⟨.servo, 0, some "https://example.com/", [], []⟩⟩
    (.ok ⟨2, .ok (.parsed (.obj [("title", .str "Secondary Title")])),
      .ok (), .ok (.invalid "unused")⟩)
    ⟨.servo, 0, some "https://example.com/", [], []⟩
    ⟨2, .ok (.parsed (.obj [("title", .str "Secondary Title")])),
      .ok (), .ok (.invalid "unused")⟩
    (.parsed (.obj [("title", .str "Secondary Title")]))
    rfl rfl rfl rfl rfl
